import Mathlib

/-!
Shallow embedding of the JupyterLab embedding controller
(`src/unnamed/part_000`, the `JupyterLab` class): connection
configuration, command registry, command palette, keybinding table,
renderer-registry construction and the mount sequence, together with
theorems settling the specification claims.
-/

namespace JupyterLabEmbed

/-- The edit/command mode flag of the notebook content widget
(`nbWidget.content.mode`). -/
inductive Mode
  | edit
  | command
deriving DecidableEq, Repr

/-- The sixteen symbolic command ids of the `cmdIds` map
(source lines 85-102). -/
inductive CmdId
  | save
  | interrupt
  | restart
  | switchKernel
  | runAndAdvance
  | deleteCell
  | selectAbove
  | selectBelow
  | extendAbove
  | extendBelow
  | editMode
  | merge
  | split
  | commandMode
  | undo
  | redo
deriving DecidableEq, Repr, Fintype

/-- The string value of each symbolic command id, exactly as in the
`cmdIds` object literal. -/
def cmdIdStr : CmdId → String
  | .save => "notebook:save"
  | .interrupt => "notebook:interrupt-kernel"
  | .restart => "notebook:restart-kernel"
  | .switchKernel => "notebook:switch-kernel"
  | .runAndAdvance => "notebook-cells:run-and-advance"
  | .deleteCell => "notebook-cells:delete"
  | .selectAbove => "notebook-cells:select-above"
  | .selectBelow => "notebook-cells:select-below"
  | .extendAbove => "notebook-cells:extend-above"
  | .extendBelow => "notebook-cells:extend-below"
  | .editMode => "notebook:edit-mode"
  | .merge => "notebook-cells:merge"
  | .split => "notebook-cells:split"
  | .commandMode => "notebook:command-mode"
  | .undo => "notebook-cells:undo"
  | .redo => "notebook-cells:redo"

/-- All sixteen symbolic command ids, in declaration order of `cmdIds`. -/
def allCmdIds : List CmdId :=
  [.save, .interrupt, .restart, .switchKernel, .runAndAdvance, .deleteCell,
   .selectAbove, .selectBelow, .extendAbove, .extendBelow,
   .editMode, .merge, .split, .commandMode, .undo, .redo]

/-- One call into the external document/notebook/action API, as issued by
the `execute` closure of a registered command.  `setMode` records the
assignment `nbWidget.content.mode = ...`, which is the widget-API effect of
the edit-mode and command-mode commands. -/
inductive ExtCall
  | contextSave
  | kernelInterrupt
  | restartKernelCall
  | selectKernelForContextCall
  | runAndAdvanceCall
  | setMode (m : Mode)
  | selectBelowCall
  | selectAboveCall
  | extendAboveCall
  | extendBelowCall
  | mergeCellsCall
  | splitCellCall
  | undoCall
  | redoCall
deriving DecidableEq, Repr

/-- A layout call on the attached panel (the resize handler issues
`panel.update()`). -/
inductive LayoutCall
  | panelUpdate
deriving DecidableEq, Repr

/-- The externally observable state of the opened notebook widget that the
controller's command closures read or write: whether
`nbWidget.context.kernel` is present, and the widget's mode flag. -/
structure NbState where
  kernelPresent : Bool
  mode : Mode
deriving DecidableEq, Repr

/-- The connection configuration stored by the `JupyterLab` constructor
(source lines 75-80): target element id, document name, ajax settings and
base URL. -/
structure ConnConfig where
  divId : String
  notebookName : String
  ajaxSettings : Option String
  baseUrl : Option String
deriving DecidableEq, Repr

/-- The `JupyterLab` constructor: stores its four arguments unchanged. -/
def mkJupyterLab (divId notebookName : String)
    (ajaxSettings : Option String) (baseUrl : Option String) : ConnConfig :=
  { divId := divId, notebookName := notebookName,
    ajaxSettings := ajaxSettings, baseUrl := baseUrl }

/-- The `execute` body registered for each command id
(source lines 182-247), as a state transformer on the notebook widget
returning the calls made into the external API.  `deleteCell` has no
`commands.addCommand` call in the source, so no execute body exists for
it and the result is `none`. -/
def runAction : CmdId → NbState → Option (NbState × List ExtCall)
  | .save, s => some (s, [.contextSave])
  | .interrupt, s =>
      if s.kernelPresent then some (s, [.kernelInterrupt]) else some (s, [])
  | .restart, s => some (s, [.restartKernelCall])
  | .switchKernel, s => some (s, [.selectKernelForContextCall])
  | .runAndAdvance, s => some (s, [.runAndAdvanceCall])
  | .editMode, s => some ({ s with mode := .edit }, [.setMode .edit])
  | .commandMode, s => some ({ s with mode := .command }, [.setMode .command])
  | .selectBelow, s => some (s, [.selectBelowCall])
  | .selectAbove, s => some (s, [.selectAboveCall])
  | .extendAbove, s => some (s, [.extendAboveCall])
  | .extendBelow, s => some (s, [.extendBelowCall])
  | .merge, s => some (s, [.mergeCellsCall])
  | .split, s => some (s, [.splitCellCall])
  | .undo, s => some (s, [.undoCall])
  | .redo, s => some (s, [.redoCall])
  | .deleteCell, _ => none

/-- The command registry contents after the fifteen `commands.addCommand`
calls of `createApp`, in source order: (command id string, display label,
action tag). -/
def addedCommands : List (String × String × CmdId) :=
  [ (cmdIdStr .save, "Save", .save),
    (cmdIdStr .interrupt, "Interrupt", .interrupt),
    (cmdIdStr .restart, "Restart Kernel", .restart),
    (cmdIdStr .switchKernel, "Switch Kernel", .switchKernel),
    (cmdIdStr .runAndAdvance, "Run and Advance", .runAndAdvance),
    (cmdIdStr .editMode, "Edit Mode", .editMode),
    (cmdIdStr .commandMode, "Command Mode", .commandMode),
    (cmdIdStr .selectBelow, "Select Below", .selectBelow),
    (cmdIdStr .selectAbove, "Select Above", .selectAbove),
    (cmdIdStr .extendAbove, "Extend Above", .extendAbove),
    (cmdIdStr .extendBelow, "Extend Below", .extendBelow),
    (cmdIdStr .merge, "Merge Cells", .merge),
    (cmdIdStr .split, "Split Cell", .split),
    (cmdIdStr .undo, "Undo", .undo),
    (cmdIdStr .redo, "Redo", .redo) ]

/-- The command palette contents after the `palette.addItem` calls,
in source order: (command id string, category). -/
def paletteItems : List (String × String) :=
  ([CmdId.interrupt, .restart, .editMode, .commandMode, .switchKernel].map
    (fun c => (cmdIdStr c, "Notebook Operations"))) ++
  ([CmdId.runAndAdvance, .split, .merge, .selectAbove, .selectBelow,
    .extendAbove, .extendBelow, .undo, .redo].map
    (fun c => (cmdIdStr c, "Notebook Cell Operations")))

/-- One key binding: CSS selector scope, key-chord sequence, command id. -/
structure Binding where
  selector : String
  keys : List String
  command : String
deriving DecidableEq, Repr

/-- The `bindings` array passed to `keymap.addBinding`
(source lines 271-353), in source order. -/
def bindings : List Binding :=
  [ ⟨".jp-Notebook", ["Shift Enter"], cmdIdStr .runAndAdvance⟩,
    ⟨".jp-Notebook", ["Accel S"], cmdIdStr .save⟩,
    ⟨".jp-Notebook.jp-mod-commandMode", ["I", "I"], cmdIdStr .interrupt⟩,
    ⟨".jp-Notebook.jp-mod-commandMode", ["0", "0"], cmdIdStr .restart⟩,
    ⟨".jp-Notebook.jp-mod-commandMode", ["Enter"], cmdIdStr .editMode⟩,
    ⟨".jp-Notebook.jp-mod-editMode", ["Escape"], cmdIdStr .commandMode⟩,
    ⟨".jp-Notebook.jp-mod-commandMode", ["Shift M"], cmdIdStr .merge⟩,
    ⟨".jp-Notebook.jp-mod-editMode", ["Ctrl Shift -"], cmdIdStr .split⟩,
    ⟨".jp-Notebook.jp-mod-commandMode", ["J"], cmdIdStr .selectBelow⟩,
    ⟨".jp-Notebook.jp-mod-commandMode", ["ArrowDown"], cmdIdStr .selectBelow⟩,
    ⟨".jp-Notebook.jp-mod-commandMode", ["K"], cmdIdStr .selectAbove⟩,
    ⟨".jp-Notebook.jp-mod-commandMode", ["ArrowUp"], cmdIdStr .selectAbove⟩,
    ⟨".jp-Notebook.jp-mod-commandMode", ["Shift K"], cmdIdStr .extendAbove⟩,
    ⟨".jp-Notebook.jp-mod-commandMode", ["Shift J"], cmdIdStr .extendBelow⟩,
    ⟨".jp-Notebook.jp-mod-commandMode", ["Z"], cmdIdStr .undo⟩,
    ⟨".jp-Notebook.jp-mod-commandMode", ["Y"], cmdIdStr .redo⟩ ]

/-- The state of the embedded application after `createApp` has run:
the entities built at startup plus the notebook widget state. -/
structure AppState where
  config : ConnConfig
  commands : List (String × String × CmdId)
  keyBindings : List Binding
  palette : List (String × String)
  panelAttached : Bool
  nb : NbState
deriving DecidableEq, Repr

/-- Executing a command by id through the registry
(`CommandRegistry.execute`): look the id up in the registered commands and
run its execute body; an id with no registered command does nothing. -/
def execCommandById (id : String) (st : AppState) : AppState × List ExtCall :=
  match st.commands.find? (fun e => e.1 == id) with
  | none => (st, [])
  | some e =>
      match runAction e.2.2 st.nb with
      | none => (st, [])
      | some (nb', calls) => ({ st with nb := nb' }, calls)

/-- The window resize handler installed by `createApp`
(`window.onresize = () => panel.update()`): issues exactly one layout
update and changes nothing. -/
def onResize (st : AppState) : AppState × List LayoutCall :=
  (st, [.panelUpdate])

/-- One renderer instance of the transformer array: its identity and the
mime-types it declares (`t.mimetypes`). -/
structure Transformer where
  name : String
  mimetypes : List String
deriving DecidableEq, Repr

/-- The renderer-map construction loop of `createApp`
(source lines 130-137): `for t of transformers { for m of t.mimetypes {
renderers[m] = t } }`.  A later assignment to the same mime-type key
overwrites the earlier one, as in a JavaScript object. -/
def buildRenderers (ts : List Transformer) : String → Option Transformer :=
  ts.foldl
    (fun acc t => fun m => if t.mimetypes.contains m then some t else acc m)
    (fun _ => none)

/-- The `order` array built by the same loop: every declared mime-type
pushed in declaration order (duplicates kept). -/
def buildOrder (ts : List Transformer) : List String :=
  ts.foldl (fun acc t => acc ++ t.mimetypes) []

/-- One step of the `createApp` mount sequence, for the ordering claims. -/
inductive SetupStep
  | createCommandRegistry
  | createKeymap
  | addKeydownListener
  | createRenderMime
  | createDocRegistry
  | createDocManager
  | createModelFactory
  | createWidgetFactory
  | addModelFactory
  | addWidgetFactory
  | openDocument
  | createPalette
  | createPanel
  | addPaletteToPanel
  | addNbWidgetToPanel
  | attachPanel
  | setResizeHandler
  | addCommand (id : String)
  | addPaletteItem (id : String)
  | addBinding (id : String)
deriving DecidableEq, Repr

/-- The sequence of setup steps performed by `createApp`
(source lines 110-354), in source order. -/
def mountTrace : List SetupStep :=
  [ .createCommandRegistry, .createKeymap, .addKeydownListener,
    .createRenderMime,
    .createDocRegistry, .createDocManager,
    .createModelFactory, .createWidgetFactory,
    .addModelFactory, .addWidgetFactory,
    .openDocument, .createPalette,
    .createPanel, .addPaletteToPanel, .addNbWidgetToPanel,
    .attachPanel, .setResizeHandler ]
  ++ addedCommands.map (fun e => .addCommand e.1)
  ++ paletteItems.map (fun e => .addPaletteItem e.1)
  ++ bindings.map (fun b => .addBinding b.command)

/-- `createApp` (source lines 110-354): builds the application state from
the stored configuration and the opened widget's state, producing the
mount trace. -/
def createApp (cfg : ConnConfig) (nb0 : NbState) : AppState × List SetupStep :=
  ({ config := cfg, commands := addedCommands, keyBindings := bindings,
     palette := paletteItems, panelAttached := true, nb := nb0 },
   mountTrace)

/-- `embedJupyterLabUI` (source lines 104-108):
`createServiceManager(options).then(manager => createApp(manager))`.
The argument is the settled result of `createServiceManager`; on
rejection the `then` callback never runs, there is no rejection handler
and no retry, so nothing is built. -/
def embedJupyterLabUI (cfg : ConnConfig) (res : Except String NbState) :
    Option (AppState × List SetupStep) :=
  match res with
  | .ok nb0 => some (createApp cfg nb0)
  | .error _ => none

end JupyterLabEmbed

namespace JupyterLabEmbed

/-- A post-setup application state built by `createApp` from the
configuration of `main` (source line 66), with no kernel present and the
widget in command mode. -/
def sampleNoKernel : AppState :=
  (createApp
    (mkJupyterLab "jupyter-notebook-wrapper" "test.ipynb" none
      (some "http://localhost:8889"))
    ⟨false, .command⟩).1

/-- Generalized accumulator form of the renderer-map construction: a
lookup in the folded map returns the last transformer that declared the
mime-type, falling back to the initial map. -/
theorem buildRenderers_fold_eq (ts : List Transformer) (m : String)
    (acc : String → Option Transformer) :
    (ts.foldl
      (fun acc t => fun m => if t.mimetypes.contains m then some t else acc m)
      acc) m
    = match ts.reverse.find? (fun t => t.mimetypes.contains m) with
      | some t => some t
      | none => acc m := by
  induction ts generalizing acc with
  | nil => simp
  | cons t rest ih =>
    simp only [List.foldl_cons, List.reverse_cons, List.find?_append]
    rw [ih]
    cases h : rest.reverse.find? (fun t => t.mimetypes.contains m) with
    | some u => simp [Option.or]
    | none =>
      by_cases hm : m ∈ t.mimetypes
      · simp [List.find?, hm, Option.or]
      · simp [List.find?, hm, Option.or]

/-- The state reached by executing a command through the registry differs
from the starting state in at most the notebook widget's mode flag: the
configuration, command table, keybinding table, palette, panel attachment
and kernel presence are all preserved, for every command id and every
state. -/
theorem exec_preserves_structure (id : String) (st : AppState) :
    (execCommandById id st).1.config = st.config ∧
    (execCommandById id st).1.commands = st.commands ∧
    (execCommandById id st).1.keyBindings = st.keyBindings ∧
    (execCommandById id st).1.palette = st.palette ∧
    (execCommandById id st).1.panelAttached = st.panelAttached ∧
    (execCommandById id st).1.nb.kernelPresent = st.nb.kernelPresent := by
  rcases st with ⟨cfg, cmds, kb, pal, pa, ⟨kp, m⟩⟩
  unfold execCommandById
  cases h : cmds.find? (fun e => e.1 == id) with
  | none => simp
  | some e =>
    rcases e with ⟨s, lbl, c⟩
    cases c <;> cases kp <;> simp [runAction]

/-- True when every step satisfying `p` occurs strictly before every step
satisfying `q` in the list (`p` and `q` are assumed disjoint): from the
first `q`-step on, no `p`-step occurs. -/
def stepOrderedB (p q : SetupStep → Bool) (l : List SetupStep) : Bool :=
  (l.dropWhile (fun s => !q s)).all (fun s => !p s)

/-- Discriminator for `addCommand` steps of the mount trace. -/
def isAddCommandStep : SetupStep → Bool
  | .addCommand _ => true
  | _ => false

/-- Discriminator for `addPaletteItem` steps of the mount trace. -/
def isAddPaletteItemStep : SetupStep → Bool
  | .addPaletteItem _ => true
  | _ => false

/-- Discriminator for `addBinding` steps of the mount trace. -/
def isAddBindingStep : SetupStep → Bool
  | .addBinding _ => true
  | _ => false

end JupyterLabEmbed

namespace JupyterLabEmbed

/-- C1 (counterexample): the command registry does not contain 16
commands after mounting.  Only 15 `commands.addCommand` calls occur, and
the delete-cell id `notebook-cells:delete` is never registered. -/
theorem C1_sixteen_commands_false :
    addedCommands.length = 15 ∧
    ((addedCommands.map (fun e => e.1)).contains
      (cmdIdStr CmdId.deleteCell)) = false := by
  decide

/-- C1 (amended): after mounting, the command registry contains exactly
15 commands with pairwise distinct ids, one for each of the 16 symbolic
command ids except delete-cell, which is never registered. -/
theorem C1_fifteen_commands :
    addedCommands.length = 15 ∧
    (addedCommands.map (fun e => e.1)).Nodup ∧
    (∀ c : CmdId, c ≠ CmdId.deleteCell ↔
      (addedCommands.map (fun e => e.1)).contains (cmdIdStr c) = true) := by
  decide

/-- C2: every key binding added to the keybinding table references a
command id that was registered in the command registry. -/
theorem C2_bindings_reference_registered :
    ∀ b ∈ bindings, b.command ∈ addedCommands.map (fun e => e.1) := by
  decide

/-- C2 (witness): the first binding of the table, Shift Enter for
run-and-advance, references a registered command id. -/
theorem C2_bindings_reference_registered_witness :
    (Binding.mk ".jp-Notebook" ["Shift Enter"] "notebook-cells:run-and-advance")
      ∈ bindings ∧
    "notebook-cells:run-and-advance" ∈ addedCommands.map (fun e => e.1) :=
  ⟨by decide,
   C2_bindings_reference_registered
     (Binding.mk ".jp-Notebook" ["Shift Enter"] "notebook-cells:run-and-advance")
     (by decide)⟩

/-- C3: when the service-connection creation is rejected, mounting builds
nothing: no application state exists, so in particular no panel is ever
attached and no setup step runs; there is no retry and no partial UI. -/
theorem C3_rejected_connection_no_ui :
    ∀ (cfg : ConnConfig) (e : String),
      embedJupyterLabUI cfg (Except.error e) = none :=
  fun _ _ => rfl

/-- C4 (counterexample): with two renderers both declaring `text/html`,
the renderer map resolves `text/html` to the renderer declared second,
not to the one whose declaration appears first. -/
theorem C4_first_wins_false :
    buildRenderers
      [⟨"rendererA", ["text/html"]⟩, ⟨"rendererB", ["text/html"]⟩]
      "text/html" = some ⟨"rendererB", ["text/html"]⟩ ∧
    buildRenderers
      [⟨"rendererA", ["text/html"]⟩, ⟨"rendererB", ["text/html"]⟩]
      "text/html" ≠ some ⟨"rendererA", ["text/html"]⟩ := by
  decide

/-- C4 (amended): for any transformer list, the renderer map resolves a
mime-type to the renderer whose declaration appears last among those
declaring it — each `renderers[m] = t` assignment overwrites the previous
one, so the last declaration wins, not the first. -/
theorem C4_last_declaration_wins (ts : List Transformer) (m : String) :
    buildRenderers ts m
    = ts.reverse.find? (fun t => t.mimetypes.contains m) := by
  rw [buildRenderers, buildRenderers_fold_eq]
  cases h : ts.reverse.find? (fun t => t.mimetypes.contains m) <;> simp

/-- C5: executing the interrupt command when the document context has no
kernel is a no-op: the registered execute body is guarded by the kernel
presence check, so no external call is issued and the state is
unchanged. -/
theorem C5_interrupt_without_kernel_noop (st : AppState)
    (hr : st.commands = addedCommands)
    (hk : st.nb.kernelPresent = false) :
    execCommandById (cmdIdStr CmdId.interrupt) st = (st, []) := by
  rcases st with ⟨cfg, cmds, kb, pal, pa, ⟨kp, m⟩⟩
  dsimp only at hr hk
  subst hr
  subst hk
  rfl

/-- C5 (witness): in the sample post-setup state with no kernel, the
interrupt command changes nothing and issues no call. -/
theorem C5_interrupt_without_kernel_noop_witness :
    sampleNoKernel.commands = addedCommands ∧
    sampleNoKernel.nb.kernelPresent = false ∧
    execCommandById (cmdIdStr CmdId.interrupt) sampleNoKernel
      = (sampleNoKernel, []) :=
  ⟨rfl, rfl, C5_interrupt_without_kernel_noop sampleNoKernel rfl rfl⟩

/-- C6 (counterexample): there are not 16 registered command ids but 15,
and the registered interrupt command, executed in a state with no kernel,
performs zero calls into the external API rather than exactly one. -/
theorem C6_exactly_one_call_false :
    addedCommands.length ≠ 16 ∧
    (cmdIdStr CmdId.interrupt) ∈ addedCommands.map (fun e => e.1) ∧
    (execCommandById (cmdIdStr CmdId.interrupt) sampleNoKernel).2.length
      = 0 := by
  decide

/-- C6 (amended): for every one of the 15 registered command ids,
executing the command performs at most one call into the external
document/notebook/action API — exactly one except for the interrupt
command in a state with no kernel, which performs none — and leaves the
controller's own state (command table, keybinding table, palette, panel
attachment, configuration) unchanged. -/
theorem C6_at_most_one_call (st : AppState) (c : CmdId)
    (hr : st.commands = addedCommands) (hc : c ≠ CmdId.deleteCell) :
    (execCommandById (cmdIdStr c) st).2.length ≤ 1 ∧
    ((execCommandById (cmdIdStr c) st).2.length = 0 →
      c = CmdId.interrupt ∧ st.nb.kernelPresent = false) ∧
    (execCommandById (cmdIdStr c) st).1.commands = st.commands ∧
    (execCommandById (cmdIdStr c) st).1.keyBindings = st.keyBindings ∧
    (execCommandById (cmdIdStr c) st).1.palette = st.palette ∧
    (execCommandById (cmdIdStr c) st).1.panelAttached = st.panelAttached ∧
    (execCommandById (cmdIdStr c) st).1.config = st.config := by
  rcases st with ⟨cfg, cmds, kb, pal, pa, ⟨kp, m⟩⟩
  dsimp only at hr ⊢
  subst hr
  cases c <;> cases kp <;>
    first
      | exact absurd rfl hc
      | exact ⟨Nat.le.refl, fun h => absurd h (Nat.succ_ne_zero 0),
          rfl, rfl, rfl, rfl, rfl⟩
      | exact ⟨Nat.zero_le 1, fun h => ⟨rfl, rfl⟩, rfl, rfl, rfl, rfl, rfl⟩

/-- C6 (witness): the save command, executed in the sample post-setup
state, performs at most one external call, and its call list is
nonempty. -/
theorem C6_at_most_one_call_witness :
    sampleNoKernel.commands = addedCommands ∧
    (execCommandById (cmdIdStr CmdId.save) sampleNoKernel).2.length ≤ 1 ∧
    (execCommandById (cmdIdStr CmdId.save) sampleNoKernel).1.palette
      = sampleNoKernel.palette :=
  ⟨rfl,
   (C6_at_most_one_call sampleNoKernel CmdId.save rfl (by decide)).1,
   (C6_at_most_one_call sampleNoKernel CmdId.save rfl (by decide)).2.2.2.2.1⟩

end JupyterLabEmbed

namespace JupyterLabEmbed

/-- C7: the entities built at startup are created exactly once in the
mount sequence and are never structurally mutated afterwards by any
controller operation: executing any command preserves the configuration,
command table, keybinding table, palette, panel attachment and kernel
presence (only the widget's mode flag can change), and the resize handler
changes no state at all. -/
theorem C7_write_once_after_setup :
    (∀ (id : String) (st : AppState),
      (execCommandById id st).1.config = st.config ∧
      (execCommandById id st).1.commands = st.commands ∧
      (execCommandById id st).1.keyBindings = st.keyBindings ∧
      (execCommandById id st).1.palette = st.palette ∧
      (execCommandById id st).1.panelAttached = st.panelAttached ∧
      (execCommandById id st).1.nb.kernelPresent = st.nb.kernelPresent) ∧
    (∀ st : AppState, (onResize st).1 = st) ∧
    (mountTrace.count SetupStep.createCommandRegistry = 1 ∧
     mountTrace.count SetupStep.createKeymap = 1 ∧
     mountTrace.count SetupStep.createRenderMime = 1 ∧
     mountTrace.count SetupStep.createDocRegistry = 1 ∧
     mountTrace.count SetupStep.createDocManager = 1 ∧
     mountTrace.count SetupStep.openDocument = 1 ∧
     mountTrace.count SetupStep.createPalette = 1 ∧
     mountTrace.count SetupStep.createPanel = 1 ∧
     mountTrace.count SetupStep.attachPanel = 1) :=
  ⟨exec_preserves_structure, fun _ => rfl, by decide⟩

/-- C8 (counterexample): the layout panel is not attached last during
mounting: `Widget.attach` occurs in the trace strictly before the first
`addCommand` step (and before palette population and key bindings), so
the trace does not end with the attach step. -/
theorem C8_panel_attached_last_false :
    SetupStep.attachPanel ∈ mountTrace ∧
    mountTrace.indexOf SetupStep.attachPanel
      < mountTrace.indexOf (SetupStep.addCommand (cmdIdStr CmdId.save)) ∧
    mountTrace.getLast? ≠ some SetupStep.attachPanel := by
  decide

/-- C8 (amended): mounting suspends only until the connection handle
resolves and then runs the setup synchronously in this order: command
registry and keymap created first, then the rendering registry, then the
document registry and manager, then the document widget is opened, then
the palette is created and the layout panel is assembled and attached;
only after attachment are the commands registered, then the palette
populated, and the keybinding table is filled last. -/
theorem C8_mount_order :
    (∀ (cfg : ConnConfig) (nb0 : NbState),
      embedJupyterLabUI cfg (Except.ok nb0) = some (createApp cfg nb0)) ∧
    (∀ (cfg : ConnConfig) (nb0 : NbState),
      (createApp cfg nb0).2 = mountTrace) ∧
    (mountTrace.indexOf SetupStep.createCommandRegistry = 0 ∧
     mountTrace.indexOf SetupStep.createKeymap = 1 ∧
     mountTrace.indexOf SetupStep.createRenderMime
       < mountTrace.indexOf SetupStep.createDocRegistry ∧
     mountTrace.indexOf SetupStep.createDocRegistry
       < mountTrace.indexOf SetupStep.createDocManager ∧
     mountTrace.indexOf SetupStep.createDocManager
       < mountTrace.indexOf SetupStep.openDocument ∧
     mountTrace.indexOf SetupStep.openDocument
       < mountTrace.indexOf SetupStep.createPalette ∧
     mountTrace.indexOf SetupStep.createPalette
       < mountTrace.indexOf SetupStep.attachPanel ∧
     stepOrderedB (fun s => s == SetupStep.attachPanel) isAddCommandStep
       mountTrace = true ∧
     stepOrderedB isAddCommandStep isAddPaletteItemStep mountTrace = true ∧
     stepOrderedB isAddPaletteItemStep isAddBindingStep mountTrace = true ∧
     mountTrace.getLast?.map isAddBindingStep = some true) :=
  ⟨fun _ _ => rfl, fun _ _ => rfl, by decide⟩

/-- C9: each window resize event triggers exactly one layout update call
on the attached panel and changes nothing else: the handler's call list
is exactly one panel update, and the state is returned unchanged. -/
theorem C9_resize_single_update (st : AppState) :
    onResize st = (st, [LayoutCall.panelUpdate]) ∧
    (onResize st).2.length = 1 :=
  ⟨rfl, rfl⟩

/-- C10: the command palette is populated with exactly 14 items, 5 in the
category Notebook Operations and 9 in Notebook Cell Operations, and
neither the save command id nor the delete-cell command id appears in
it. -/
theorem C10_palette_contents :
    paletteItems.length = 14 ∧
    (paletteItems.filter (fun e => e.2 == "Notebook Operations")).length
      = 5 ∧
    (paletteItems.filter (fun e => e.2 == "Notebook Cell Operations")).length
      = 9 ∧
    paletteItems.all
      (fun e => e.1 != cmdIdStr CmdId.save
        && e.1 != cmdIdStr CmdId.deleteCell) = true := by
  decide

end JupyterLabEmbed

namespace JupyterLabEmbed

/-- C3 (witness): with the configuration of `main` and a rejected
connection, mounting produces nothing. -/
theorem C3_rejected_connection_no_ui_witness :
    embedJupyterLabUI
      (mkJupyterLab "jupyter-notebook-wrapper" "test.ipynb" none
        (some "http://localhost:8889"))
      (Except.error "connection refused") = none :=
  C3_rejected_connection_no_ui
    (mkJupyterLab "jupyter-notebook-wrapper" "test.ipynb" none
      (some "http://localhost:8889"))
    "connection refused"

/-- C4 (witness): on a concrete two-transformer list sharing a mime-type,
the map resolves to the last declaration. -/
theorem C4_last_declaration_wins_witness :
    buildRenderers
      [⟨"rendererA", ["text/html"]⟩, ⟨"rendererB", ["text/html"]⟩]
      "text/html"
    = ([(⟨"rendererA", ["text/html"]⟩ : Transformer),
        ⟨"rendererB", ["text/html"]⟩].reverse.find?
        (fun t => t.mimetypes.contains "text/html")) :=
  C4_last_declaration_wins
    [⟨"rendererA", ["text/html"]⟩, ⟨"rendererB", ["text/html"]⟩]
    "text/html"

/-- C9 (witness): one resize in the sample post-setup state issues
exactly one panel update and changes nothing. -/
theorem C9_resize_single_update_witness :
    onResize sampleNoKernel = (sampleNoKernel, [LayoutCall.panelUpdate]) ∧
    (onResize sampleNoKernel).2.length = 1 :=
  C9_resize_single_update sampleNoKernel

end JupyterLabEmbed
